import Mathlib

set_option maxRecDepth 4000

/-!
Verification development for the garmin_watch_connector repository.

The Python sources (GarminConnectSync.py, DatabaseManager.py, main.py) are
shallowly embedded below: dictionaries of the remote service become records
with optional fields, Python floats become rationals, datetimes become
rational seconds on the proleptic Gregorian calendar, a raised exception
becomes the error branch of an Except or an Option none, and the two
database tables become lists inside an explicit state record.
-/

/-! Helpers modelling Python primitive behaviour: float(), str(),
datetime.fromisoformat(), round(x, 2), string truthiness. -/

/-- Value of a decimal digit character. -/
def digitVal (c : Char) : Nat := c.toNat - 48

/-- All characters of the list are decimal digits. -/
def allDigits (l : List Char) : Bool := l.all Char.isDigit

/-- Natural number denoted by a list of digit characters. -/
def natOfDigits (l : List Char) : Nat := l.foldl (fun a c => a * 10 + digitVal c) 0

/-- Model of Python float(s) on strings: optional sign, then digits with an
optional decimal point (exponents, inf/nan and surrounding whitespace are not
used by this repository's data and are not modelled). none models the
ValueError raise. -/
def pyFloat (s : String) : Option ℚ :=
  let p : ℚ × List Char :=
    match s.data with
    | '-' :: t => (-1, t)
    | '+' :: t => (1, t)
    | t => (1, t)
  let ip := p.2.takeWhile (fun c => c ≠ '.')
  let rest := p.2.dropWhile (fun c => c ≠ '.')
  match rest with
  | [] => if allDigits ip ∧ ip ≠ [] then some (p.1 * natOfDigits ip) else none
  | _ :: fp =>
      if allDigits ip ∧ allDigits fp ∧ (ip ≠ [] ∨ fp ≠ []) then
        some (p.1 * ((natOfDigits ip : ℚ) + (natOfDigits fp : ℚ) / (10 : ℚ) ^ fp.length))
      else none

/-- Model of Python str() applied to the activityId value: str(None) is the
string "None", str of an integer is its decimal representation. -/
def pyStr (v : Option Int) : String :=
  match v with
  | none => "None"
  | some n => toString n

/-- Truthiness of an optional string value in Python: None and the empty
string are falsy. -/
def truthyS (v : Option String) : Bool :=
  match v with
  | none => false
  | some s => s ≠ ""

/-- Parse exactly n digit characters into a number, returning the rest. -/
def parseDigits : Nat → Nat → List Char → Option (Nat × List Char)
  | 0, acc, l => some (acc, l)
  | n + 1, acc, c :: l => if c.isDigit then parseDigits n (acc * 10 + digitVal c) l else none
  | _ + 1, _, [] => none

/-- Gregorian leap-year test. -/
def isLeap (y : Nat) : Bool := (y % 4 == 0 && y % 100 != 0) || y % 400 == 0

/-- Number of days of a month of the Gregorian calendar. -/
def daysInMonth (y m : Nat) : Nat :=
  if m = 2 then (if isLeap y then 29 else 28)
  else if m = 4 ∨ m = 6 ∨ m = 9 ∨ m = 11 then 30 else 31

/-- Days before the first day of month m in year y. -/
def daysBeforeMonth (y m : Nat) : Nat :=
  (List.range (m - 1)).foldl (fun acc i => acc + daysInMonth y (i + 1)) 0

/-- Proleptic Gregorian ordinal of a date, as in Python date.toordinal. -/
def toOrdinal (y m d : Nat) : Nat :=
  (y - 1) * 365 + (y - 1) / 4 + (y - 1) / 400 + daysBeforeMonth y m + d - (y - 1) / 100

/-- Seconds value of a date at midnight. -/
def dateSeconds (y m d : Nat) : ℚ := (toOrdinal y m d : ℚ) * 86400

/-- Parse the date part YYYY-MM-DD of an ISO string. -/
def parseDate (l : List Char) : Option (Nat × Nat × Nat × List Char) := do
  let (y, l1) ← parseDigits 4 0 l
  match l1 with
  | '-' :: l2 => do
    let (m, l3) ← parseDigits 2 0 l2
    match l3 with
    | '-' :: l4 => do
      let (d, l5) ← parseDigits 2 0 l4
      if 1 ≤ y ∧ y ≤ 9999 ∧ 1 ≤ m ∧ m ≤ 12 ∧ 1 ≤ d ∧ d ≤ daysInMonth y m then
        some (y, m, d, l5)
      else none
    | _ => none
  | _ => none

/-- Parse the time part HH[:MM[:SS[.fff or .ffffff]]] of an ISO string,
giving seconds within the day and the remaining characters. -/
def parseHMS (l : List Char) : Option (ℚ × List Char) := do
  let (h, l1) ← parseDigits 2 0 l
  if h ≥ 24 then none else
  match l1 with
  | ':' :: l2 => do
    let (m, l3) ← parseDigits 2 0 l2
    if m ≥ 60 then none else
    match l3 with
    | ':' :: l4 => do
      let (s, l5) ← parseDigits 2 0 l4
      if s ≥ 60 then none else
      match l5 with
      | '.' :: l6 =>
        (match parseDigits 6 0 l6 with
         | some (f, l7) => some (((h * 3600 + m * 60 + s : Nat) : ℚ) + (f : ℚ) / 1000000, l7)
         | none => do
             let (f, l7) ← parseDigits 3 0 l6
             some (((h * 3600 + m * 60 + s : Nat) : ℚ) + (f : ℚ) / 1000, l7))
      | _ => some (((h * 3600 + m * 60 + s : Nat) : ℚ), l5)
    | _ => some (((h * 3600 + m * 60 : Nat) : ℚ), l3)
  | _ => some (((h * 3600 : Nat) : ℚ), l1)

/-- Parse an optional UTC-offset suffix (+HH:MM or -HH:MM); some none means
no offset (a naive datetime), some (some o) an aware datetime with offset o
seconds. -/
def parseOffset (l : List Char) : Option (Option ℚ) :=
  match l with
  | [] => some none
  | c :: l1 =>
    if c = '+' ∨ c = '-' then
      match parseDigits 2 0 l1 with
      | some (oh, l2) =>
        (match l2 with
         | ':' :: l3 =>
           (match parseDigits 2 0 l3 with
            | some (om, l4) =>
              if l4 = [] ∧ om < 60 then
                some (some ((if c = '+' then (1 : ℚ) else -1) * ((oh * 3600 + om * 60 : Nat) : ℚ)))
              else none
            | none => none)
         | _ => none)
      | none => none
    else none

/-- Model of Python datetime.fromisoformat restricted to the shapes the
repository's data uses: YYYY-MM-DD, optionally a one-character separator and
HH[:MM[:SS[.fff[fff]]]], optionally a +HH:MM or -HH:MM offset. The result is
the represented instant in seconds together with the offset when the string
is timezone-aware; none models the ValueError raise. -/
def pyFromisoformatFull (s : String) : Option (ℚ × Option ℚ) := do
  let (y, m, d, rest) ← parseDate s.data
  match rest with
  | [] => some (dateSeconds y m d, none)
  | _ :: trest =>
    if trest = [] then none else do
      let (t, l) ← parseHMS trest
      let off ← parseOffset l
      some (dateSeconds y m d + t, off)

/-- Wall-clock value of a parsed datetime, aware or naive (used where Python
only stores the datetime object). -/
def pyFromisoformatVal (s : String) : Option ℚ := (pyFromisoformatFull s).map (·.1)

/-- Value of a parsed datetime when it is naive; an aware datetime (carrying
an offset) yields none here, modelling that comparing it against a naive
datetime.now() raises TypeError. -/
def pyFromisoformatNaive (s : String) : Option ℚ :=
  match pyFromisoformatFull s with
  | some (t, none) => some t
  | _ => none

/-- Model of the source's s.replace applied with the letter Z and the empty
string: every Z character is removed. -/
def stripZ (s : String) : String := ⟨s.data.filter (fun c => c ≠ 'Z')⟩

/-- Model of the source's s.replace applied with the letter Z and the +00:00
offset text, as done for GPX timestamps. -/
def replaceZUTC (s : String) : String :=
  ⟨(s.data.map (fun c => if c = 'Z' then "+00:00".data else [c])).flatten⟩

/-- Floor of a rational number as an integer. -/
def qfloor (q : ℚ) : ℤ := q.num.fdiv (q.den : ℤ)

/-- Nearest integer with ties to even, the rounding Python's round uses. -/
def roundHalfEven (x : ℚ) : ℤ :=
  let f := qfloor x
  let r := x - (f : ℚ)
  if r < 1 / 2 then f
  else if 1 / 2 < r then f + 1
  else if f % 2 = 0 then f else f + 1

/-- Model of Python round(x, 2). -/
def pyRound2 (x : ℚ) : ℚ := ((roundHalfEven (x * 100) : ℤ) : ℚ) / 100

example : pyFloat "47.5" = some (95 / 2) := by with_unfolding_all decide
example : pyFloat "-1.25" = some (-5 / 4) := by with_unfolding_all decide
example : pyFloat "abc" = none := by decide
example : pyFloat "" = none := by decide
example : pyFromisoformatVal "2024-01-01T06:00:00" =
    some (dateSeconds 2024 1 1 + 21600) := by with_unfolding_all rfl
example : pyFromisoformatVal "not-a-date" = none := by decide
example : pyFromisoformatNaive "2024-01-01T06:00:00+05:00" = none := by
  with_unfolding_all decide
example : stripZ "2024-01-01T06:00:00Z" = "2024-01-01T06:00:00" := by decide
example : pyRound2 300 = 300 := by with_unfolding_all decide
example : pyRound2 (10049 / 10000) = 1 := by with_unfolding_all decide
example : pyRound2 (1 / 8) = 12 / 100 := by with_unfolding_all decide

/-! Model of the GPX document tree, GarminConnectSync.parse_gpx_simple and
GarminConnectSync.get_gps_data. The external xml.etree parser either yields
an element tree or raises on unparseable markup, so its result is embedded
as an Option XElem with none for the raise. -/

mutual

/-- Element of a parsed XML document: tag (with any namespace prefix kept in
the string), attribute list, text and child elements. -/
inductive XElem where
  | mk (tag : String) (attrs : List (String × String)) (text : Option String)
      (children : XChildren)

/-- Sequence of child elements (a separate inductive rather than a List so
that recursion over documents stays structural). -/
inductive XChildren where
  | nil
  | cons (e : XElem) (rest : XChildren)

end

/-- Tag of an element. -/
def XElem.tag : XElem → String
  | .mk t _ _ _ => t

/-- Attribute list of an element. -/
def XElem.attrs : XElem → List (String × String)
  | .mk _ a _ _ => a

/-- Text of an element. -/
def XElem.text : XElem → Option String
  | .mk _ _ x _ => x

/-- Child elements of an element. -/
def XElem.children : XElem → XChildren
  | .mk _ _ _ c => c

/-- Child sequence built from a list. -/
def xc : List XElem → XChildren
  | [] => .nil
  | e :: es => .cons e (xc es)

mutual

/-- Document-order traversal of all elements from a root, the element itself
included, as ElementTree root.iter() produces. -/
def iterAll : XElem → List XElem
  | .mk t a x cs => .mk t a x cs :: iterAllChildren cs

/-- Document-order traversal of a sequence of elements. -/
def iterAllChildren : XChildren → List XElem
  | .nil => []
  | .cons e es => iterAll e ++ iterAllChildren es

end

/-- The first list is a prefix of the second. -/
def isPre : List Char → List Char → Bool
  | [], _ => true
  | _ :: _, [] => false
  | a :: as, b :: bs => a == b && isPre as bs

/-- The first list occurs as a contiguous sublist of the second. -/
def hasSub (sub : List Char) : List Char → Bool
  | [] => sub.isEmpty
  | c :: t => isPre sub (c :: t) || hasSub sub t

/-- Model of the Python membership test of one string inside another, as in
the source's checks on element tags. -/
def containsSub (sub s : String) : Bool := hasSub sub.data s.data

/-- One GPS sample as built by parse_gpx_simple. -/
structure GPoint where
  latitude : ℚ
  longitude : ℚ
  elevation_meters : Option ℚ
  speed_mps : Option ℚ
  timestamp : ℚ
deriving DecidableEq

/-- Child loop of parse_gpx_simple over one track-point's children, carrying
the elevation and timestamp fields of the point being built. The error case
models the uncaught ValueError of float() on a non-empty non-numeric
elevation text; the timestamp parse failure is caught by the inner
try/except and changes nothing. -/
def procChildren (now : ℚ) : XChildren → Option ℚ × ℚ → Except Unit (Option ℚ × ℚ)
  | .nil, st => .ok st
  | .cons c cs, st =>
    if containsSub "ele" c.tag then
      match c.text with
      | some t =>
        if t ≠ "" then
          match pyFloat t with
          | some v => procChildren now cs (some v, st.2)
          | none => .error ()
        else procChildren now cs (none, st.2)
      | none => procChildren now cs (none, st.2)
    else if containsSub "time" c.tag && truthyS c.text then
      match pyFromisoformatVal (replaceZUTC (c.text.getD "")) with
      | some v => procChildren now cs (st.1, v)
      | none => procChildren now cs st
    else procChildren now cs st

/-- Main loop of parse_gpx_simple over the document-order element list: a
track-point element with truthy lat and lon attributes becomes a sample;
a float() failure on an attribute or an elevation text raises, the outer
except catches it, and the samples accumulated so far are returned (the
elements after the raise are not processed). -/
def gpxLoop (now : ℚ) : List XElem → List GPoint
  | [] => []
  | e :: es =>
    if containsSub "trkpt" e.tag then
      let lat := List.lookup "lat" e.attrs
      let lon := List.lookup "lon" e.attrs
      if truthyS lat && truthyS lon then
        match pyFloat (lat.getD "") with
        | none => []
        | some la =>
          match pyFloat (lon.getD "") with
          | none => []
          | some lo =>
            match procChildren now e.children (none, now) with
            | .ok st => ⟨la, lo, st.1, none, st.2⟩ :: gpxLoop now es
            | .error _ => []
      else gpxLoop now es
    else gpxLoop now es

/-- Embedding of GarminConnectSync.parse_gpx_simple: unparseable markup (the
none case, where ET.fromstring raises) yields the empty list through the
outer except; otherwise the document-order loop above runs. The function is
total, so no exception escapes it. -/
def parse_gpx_simple (gpx_data : Option XElem) (now : ℚ) : List GPoint :=
  match gpx_data with
  | none => []
  | some root => gpxLoop now (iterAll root)

/-- Embedding of GarminConnectSync.get_gps_data: the download of the GPX
document can fail (outer none), which the except turns into an empty list;
otherwise the downloaded bytes are parsed. -/
def get_gps_data (download : Option (Option XElem)) (now : ℚ) : List GPoint :=
  match download with
  | none => []
  | some g => parse_gpx_simple g now

def tpA : XElem := .mk "{gpx}trkpt" [("lat", "47.0"), ("lon", "8.0")] none (xc [])

def tpB : XElem := .mk "{gpx}trkpt" [("lat", "47.1")] none (xc [])

def tpC : XElem := .mk "{gpx}trkpt" [("lat", "47.2"), ("lon", "8.2")] none
    (xc [.mk "{gpx}ele" [] (some "500") (xc [])])

def doc3 : XElem := .mk "{gpx}gpx" [] none (xc [.mk "{gpx}trk" [] none (xc [tpA, tpB, tpC])])

example : parse_gpx_simple (some doc3) 7 =
    [⟨47, 8, none, none, 7⟩, ⟨(472 : ℚ) / 10, (82 : ℚ) / 10, some 500, none, 7⟩] := by
  with_unfolding_all rfl
example : parse_gpx_simple none 7 = [] := rfl

/-! Model of the raw activity records of the remote service, of
GarminConnectSync.format_activity_data, calculate_pace, the running-type
filter of get_latest_run, and get_activities_since. -/

/-- Raw activity record as returned by the remote service client, holding
every field the source reads; each is optional because the source may omit
it. activityType is none when the key is absent or the dict is empty (both
falsy in Python); some tk is a non-empty dict whose typeKey entry is tk. -/
structure RawActivity where
  activityId : Option Int := none
  activityType : Option (Option String) := none
  startTimeLocal : Option String := none
  duration : Option ℚ := none
  distance : Option ℚ := none
  calories : Option ℚ := none
  averageHR : Option ℚ := none
  maxHR : Option ℚ := none
deriving DecidableEq

/-- Embedding of the filter in GarminConnectSync.get_latest_run lines 37-41:
keep the activities whose activityType value is truthy and whose typeKey
equals the running type. -/
def isRunning (a : RawActivity) : Bool :=
  match a.activityType with
  | none => false
  | some tk => tk == some "running"

/-- Running activities of a listing, in listing order, as get_latest_run
accumulates them. -/
def runningOnly (acts : List RawActivity) : List RawActivity := acts.filter isRunning

/-- Embedding of GarminConnectSync.calculate_pace: the Python condition is
the truthiness of both arguments conjoined with distance being positive,
and the result is the rounded seconds-per-kilometre value, else None. -/
def calculate_pace (distance_meters duration_seconds : ℚ) : Option ℚ :=
  if distance_meters ≠ 0 ∧ duration_seconds ≠ 0 ∧ distance_meters > 0 then
    some (pyRound2 (duration_seconds / (distance_meters / 1000)))
  else none

/-- Normalized activity record as built by format_activity_data, with each
field at the type of the Python expression producing it: calories is a
plain value because the source supplies the default 0 when the key is
absent, while the heart-rate fields keep None for an absent key. -/
structure FormattedData where
  activity_id : String
  start_time : ℚ
  end_time : Option ℚ
  distance_meters : ℚ
  duration_seconds : ℚ
  avg_pace_seconds_per_km : Option ℚ
  calories : ℚ
  avg_heart_rate : Option ℚ
  max_heart_rate : Option ℚ
  gps_points : List GPoint
deriving DecidableEq

/-- Embedding of GarminConnectSync.format_activity_data. now stands for
datetime.now(), download for the result of the track download (none when
the download call raises, which get_gps_data turns into an empty list).
The whole body runs under a try/except returning None: the only raise the
data can produce is datetime.fromisoformat on a truthy but unparseable
startTimeLocal string, which therefore makes the function return none. -/
def format_activity_data (s : RawActivity) (now : ℚ)
    (download : Option (Option XElem)) : Option FormattedData :=
  let sts := s.startTimeLocal.getD ""
  let parsed : Option ℚ := if sts = "" then some now else pyFromisoformatVal (stripZ sts)
  match parsed with
  | none => none
  | some start_time =>
    let duration_seconds := s.duration.getD 0
    let end_time := if duration_seconds ≠ 0 then some (start_time + duration_seconds) else none
    let distance_meters := s.distance.getD 0
    some {
      activity_id := pyStr s.activityId
      start_time := start_time
      end_time := end_time
      distance_meters := distance_meters
      duration_seconds := duration_seconds
      avg_pace_seconds_per_km := calculate_pace distance_meters duration_seconds
      calories := s.calories.getD 0
      avg_heart_rate := s.averageHR
      max_heart_rate := s.maxHR
      gps_points := get_gps_data download now }

/-- Date filter of get_activities_since on one activity: a truthy
startTimeLocal that parses (as a naive datetime) to a time strictly after
the cutoff. -/
def recentOk (cutoff : ℚ) (a : RawActivity) : Bool :=
  let sts := a.startTimeLocal.getD ""
  sts ≠ "" && ((pyFromisoformatNaive (stripZ sts)).getD cutoff > cutoff)

/-- Loop of get_activities_since over the fetched listing. The error case
models a raise inside the loop: a truthy startTimeLocal that fromisoformat
rejects (ValueError), or one that parses to an aware datetime, whose
comparison against the naive cutoff raises TypeError; both are covered by
pyFromisoformatNaive returning none. -/
def sinceLoop (cutoff : ℚ) : List RawActivity → Except Unit (List RawActivity)
  | [] => .ok []
  | a :: as =>
    let sts := a.startTimeLocal.getD ""
    if sts = "" then sinceLoop cutoff as
    else
      match pyFromisoformatNaive (stripZ sts) with
      | none => .error ()
      | some t =>
        match sinceLoop cutoff as with
        | .ok r => .ok (if t > cutoff then a :: r else r)
        | .error u => .error u

/-- Embedding of GarminConnectSync.get_activities_since: acts is the
listing the external client returns for the requested window, now stands
for datetime.now(). When not logged in the function returns the empty
list; a raise inside the loop is caught by the except clause, which also
returns the empty list. -/
def get_activities_since (logged_in : Bool) (acts : List RawActivity)
    (now : ℚ) (days_back : ℚ) : List RawActivity :=
  if logged_in = false then []
  else
    let cutoff := now - days_back * 86400
    match sinceLoop cutoff acts with
    | .ok r => r
    | .error _ => []

/-! Model of the persistence store (DatabaseManager) and of the main sync
flow of main.py. The runs table rows carry the SERIAL id and the inserted
columns; the gps_points table rows carry the owning run id and the point. -/

/-- Row of the runs table. -/
structure StoredRun where
  id : Nat
  activity_id : String
  start_time : ℚ
  end_time : Option ℚ
  distance_meters : ℚ
  duration_seconds : ℚ
  avg_pace_seconds_per_km : Option ℚ
  calories : ℚ
  avg_heart_rate : Option ℚ
  max_heart_rate : Option ℚ
deriving DecidableEq

/-- State of the store: the two tables and the next SERIAL id (ids start at
1, so a returned id is always truthy in Python). -/
structure DB where
  runs : List StoredRun
  gps_points : List (Nat × GPoint)
  nextId : Nat := 1
deriving DecidableEq

/-- Embedding of DatabaseManager.get_activity_by_id: a SELECT of the row id
keyed on activity_id; none models the no-row (falsy None) result. -/
def get_activity_by_id (db : DB) (aid : String) : Option Nat :=
  (db.runs.find? (fun r => r.activity_id == aid)).map (·.id)

/-- Runs-table row built from a normalized record (the INSERT columns). -/
def runOf (ad : FormattedData) (i : Nat) : StoredRun :=
  ⟨i, ad.activity_id, ad.start_time, ad.end_time, ad.distance_meters,
    ad.duration_seconds, ad.avg_pace_seconds_per_km, ad.calories,
    ad.avg_heart_rate, ad.max_heart_rate⟩

/-- Embedding of DatabaseManager.insert_run: the UNIQUE constraint on
activity_id makes the INSERT raise on a duplicate, which the except clause
turns into a rollback and a None id, leaving the state unchanged;
otherwise the row is appended and its generated id returned. -/
def insert_run (db : DB) (ad : FormattedData) : Option Nat × DB :=
  if db.runs.any (fun r => r.activity_id == ad.activity_id) then (none, db)
  else
    (some db.nextId,
      { db with runs := db.runs ++ [runOf ad db.nextId], nextId := db.nextId + 1 })

/-- Embedding of DatabaseManager.insert_gps_points: one INSERT per point,
tagged with the owning run id, committed together. -/
def insert_gps_points (db : DB) (rid : Nat) (pts : List GPoint) : DB :=
  { db with gps_points := db.gps_points ++ pts.map (fun p => (rid, p)) }

/-- Embedding of the per-activity part of main.main (lines 44-61):
activity_data is what get_latest_run returned (none when there was no new
running activity). The duplicate check runs before any write; a hit ends
the run with the state unchanged. Otherwise the run row is inserted and,
when an id was obtained and the point list is non-empty, the points are
inserted under that id. -/
def mainSync (db : DB) (activity_data : Option FormattedData) : DB :=
  match activity_data with
  | none => db
  | some ad =>
    match get_activity_by_id db ad.activity_id with
    | some _ => db
    | none =>
      let gps := ad.gps_points
      match insert_run db ad with
      | (some rid, db1) => if gps ≠ [] then insert_gps_points db1 rid gps else db1
      | (none, db1) => db1

/-- Number of runs-table rows carrying a given external identifier. -/
def countRuns (db : DB) (aid : String) : Nat :=
  (db.runs.filter (fun r => r.activity_id == aid)).length

example : calculate_pace 5000 1500 = some 300 := by with_unfolding_all rfl
example : calculate_pace 0 1500 = none := by with_unfolding_all rfl
example : calculate_pace 5000 0 = none := by with_unfolding_all rfl
example : calculate_pace 10000 3000 = some 300 := by with_unfolding_all rfl

/-! Derived notions about the parser used to state the track-parsing
claims: which elements the loop keeps, the sample it builds for them, and
well-formedness of a document. -/

/-- An Except value is the ok branch. -/
def exceptOk {e a : Type} : Except e a → Bool
  | .ok _ => true
  | .error _ => false

/-- Condition under which the parser loop keeps an element: a track-point
tag with truthy lat and lon attributes (the source's test). -/
def goodTrkpt (e : XElem) : Bool :=
  containsSub "trkpt" e.tag &&
    (truthyS (List.lookup "lat" e.attrs) && truthyS (List.lookup "lon" e.attrs))

/-- A track-point element carrying both coordinate attributes. -/
def hasBothCoords (e : XElem) : Bool :=
  containsSub "trkpt" e.tag &&
    ((List.lookup "lat" e.attrs).isSome && (List.lookup "lon" e.attrs).isSome)

/-- Processing this kept element raises no exception: both coordinates
parse as floats and the child loop completes. -/
def noAbort (now : ℚ) (e : XElem) : Bool :=
  (pyFloat ((List.lookup "lat" e.attrs).getD "")).isSome &&
    ((pyFloat ((List.lookup "lon" e.attrs).getD "")).isSome &&
      exceptOk (procChildren now e.children (none, now)))

/-- The sample the loop builds for a kept element that raises nothing. -/
def trkptPoint (now : ℚ) (e : XElem) : GPoint :=
  let la := (pyFloat ((List.lookup "lat" e.attrs).getD "")).getD 0
  let lo := (pyFloat ((List.lookup "lon" e.attrs).getD "")).getD 0
  let st :=
    match procChildren now e.children (none, now) with
    | .ok st => st
    | .error _ => (none, now)
  ⟨la, lo, st.1, none, st.2⟩

/-- Well-formedness of one coordinate attribute: absent is fine; a present
value is non-empty and parses as a float. -/
def attrWf (v : Option String) : Bool :=
  match v with
  | none => true
  | some s => s ≠ "" && (pyFloat s).isSome

/-- Well-formedness of a track-point element: both coordinate attributes
are well-formed and its child loop raises nothing. -/
def trkptWf (now : ℚ) (e : XElem) : Bool :=
  attrWf (List.lookup "lat" e.attrs) &&
    (attrWf (List.lookup "lon" e.attrs) &&
      exceptOk (procChildren now e.children (none, now)))

/-- Well-formed track document: every track-point element in it is
well-formed. -/
def wfDoc (now : ℚ) (root : XElem) : Bool :=
  (iterAll root).all (fun e => !(containsSub "trkpt" e.tag) || trkptWf now e)

theorem gpxLoop_cons_clean (now : ℚ) (x : XElem) (rest : List XElem)
    (h : goodTrkpt x = true → noAbort now x = true) :
    gpxLoop now (x :: rest) =
      (if goodTrkpt x then [trkptPoint now x] else []) ++ gpxLoop now rest := by
  cases htag : containsSub "trkpt" x.tag with
  | false =>
    have hgood : goodTrkpt x = false := by simp [goodTrkpt, htag]
    simp [gpxLoop, htag, hgood]
  | true =>
    cases hco : (truthyS (List.lookup "lat" x.attrs) &&
        truthyS (List.lookup "lon" x.attrs)) with
    | false =>
      have hgood : goodTrkpt x = false := by simp [goodTrkpt, htag, hco]
      simp [gpxLoop, htag, hco, hgood]
    | true =>
      have hgood : goodTrkpt x = true := by simp [goodTrkpt, htag, hco]
      have hna := h hgood
      simp only [noAbort, Bool.and_eq_true] at hna
      obtain ⟨hla, hlo, hpc⟩ := hna
      obtain ⟨la, hla2⟩ := Option.isSome_iff_exists.mp hla
      obtain ⟨lo, hlo2⟩ := Option.isSome_iff_exists.mp hlo
      cases hpc2 : procChildren now x.children (none, now) with
      | error u => simp [exceptOk, hpc2] at hpc
      | ok st =>
        simp [gpxLoop, htag, hco, hla2, hlo2, hpc2, hgood, trkptPoint]

theorem gpxLoop_clean (now : ℚ) (l : List XElem)
    (h : ∀ e ∈ l, goodTrkpt e = true → noAbort now e = true) :
    gpxLoop now l = (l.filter goodTrkpt).map (trkptPoint now) := by
  induction l with
  | nil => rfl
  | cons x xs ih =>
    have hx := h x (List.mem_cons_self x xs)
    have hxs : ∀ e ∈ xs, goodTrkpt e = true → noAbort now e = true :=
      fun e he => h e (List.mem_cons_of_mem x he)
    rw [gpxLoop_cons_clean now x xs hx, ih hxs, List.filter_cons]
    cases hgood : goodTrkpt x <;> simp [hgood]

theorem gpxLoop_cons_abort (now : ℚ) (e : XElem) (rest : List XElem)
    (hgood : goodTrkpt e = true)
    (hla : (pyFloat ((List.lookup "lat" e.attrs).getD "")).isSome = true)
    (hlo : (pyFloat ((List.lookup "lon" e.attrs).getD "")).isSome = true)
    (habort : procChildren now e.children (none, now) = .error ()) :
    gpxLoop now (e :: rest) = [] := by
  simp only [goodTrkpt, Bool.and_eq_true] at hgood
  obtain ⟨htag, hco⟩ := hgood
  obtain ⟨la, hla2⟩ := Option.isSome_iff_exists.mp hla
  obtain ⟨lo, hlo2⟩ := Option.isSome_iff_exists.mp hlo
  simp [gpxLoop, htag, hco.1, hco.2, hla2, hlo2, habort]

theorem gpxLoop_append_abort (now : ℚ) (pre : List XElem) (e : XElem) (post : List XElem)
    (hpre : ∀ x ∈ pre, goodTrkpt x = true → noAbort now x = true)
    (hgood : goodTrkpt e = true)
    (hla : (pyFloat ((List.lookup "lat" e.attrs).getD "")).isSome = true)
    (hlo : (pyFloat ((List.lookup "lon" e.attrs).getD "")).isSome = true)
    (habort : procChildren now e.children (none, now) = .error ()) :
    gpxLoop now (pre ++ e :: post) = (pre.filter goodTrkpt).map (trkptPoint now) := by
  induction pre with
  | nil =>
    simp only [List.nil_append, List.filter_nil, List.map_nil]
    exact gpxLoop_cons_abort now e post hgood hla hlo habort
  | cons x xs ih =>
    have hx := hpre x (List.mem_cons_self x xs)
    have hxs : ∀ y ∈ xs, goodTrkpt y = true → noAbort now y = true :=
      fun y hy => hpre y (List.mem_cons_of_mem x hy)
    rw [List.cons_append, gpxLoop_cons_clean now x (xs ++ e :: post) hx, ih hxs,
      List.filter_cons]
    cases hg : goodTrkpt x <;> simp [hg]

theorem trkptWf_parts (now : ℚ) (e : XElem) (h : trkptWf now e = true) :
    attrWf (List.lookup "lat" e.attrs) = true ∧
    attrWf (List.lookup "lon" e.attrs) = true ∧
    exceptOk (procChildren now e.children (none, now)) = true := by
  simpa [trkptWf, Bool.and_eq_true] using h

theorem attrWf_truthy_isSome (v : Option String) (h : attrWf v = true) :
    truthyS v = v.isSome := by
  cases v with
  | none => rfl
  | some s =>
    simp only [attrWf, Bool.and_eq_true] at h
    simp [truthyS, h.1]

theorem attrWf_truthy_float (v : Option String) (h : attrWf v = true) :
    (pyFloat (v.getD "")).isSome = true ∨ truthyS v = false := by
  cases v with
  | none => exact Or.inr rfl
  | some s =>
    simp only [attrWf, Bool.and_eq_true] at h
    exact Or.inl (by simpa using h.2)

theorem wfDoc_mem (now : ℚ) (root : XElem) (h : wfDoc now root = true) :
    ∀ e ∈ iterAll root, containsSub "trkpt" e.tag = true → trkptWf now e = true := by
  intro e he htag
  have hm := (List.all_eq_true.mp h) e he
  simpa [htag] using hm

theorem wfDoc_good_eq (now : ℚ) (root : XElem) (h : wfDoc now root = true) :
    ∀ e ∈ iterAll root, goodTrkpt e = hasBothCoords e := by
  intro e he
  cases htag : containsSub "trkpt" e.tag with
  | false => simp [goodTrkpt, hasBothCoords, htag]
  | true =>
    obtain ⟨h1, h2, _⟩ := trkptWf_parts now e (wfDoc_mem now root h e he htag)
    simp [goodTrkpt, hasBothCoords, htag, attrWf_truthy_isSome _ h1,
      attrWf_truthy_isSome _ h2]

theorem wfDoc_noAbort (now : ℚ) (root : XElem) (h : wfDoc now root = true) :
    ∀ e ∈ iterAll root, goodTrkpt e = true → noAbort now e = true := by
  intro e he hg
  simp only [goodTrkpt, Bool.and_eq_true] at hg
  obtain ⟨htag, hco1, hco2⟩ := hg
  obtain ⟨h1, h2, h3⟩ := trkptWf_parts now e (wfDoc_mem now root h e he htag)
  simp only [noAbort, Bool.and_eq_true]
  refine ⟨?_, ?_, h3⟩
  · rcases attrWf_truthy_float _ h1 with hok | hbad
    · exact hok
    · rw [hco1] at hbad; exact absurd hbad (by simp)
  · rcases attrWf_truthy_float _ h2 with hok | hbad
    · exact hok
    · rw [hco2] at hbad; exact absurd hbad (by simp)

/-- Claim C5: for every well-formed track document, the parser returns
exactly the track-point elements that carry both a latitude and a
longitude attribute, as samples in document order (never reordered), and
skips each track-point missing either coordinate without error. -/
theorem C5_parser_filters_coords (root : XElem) (now : ℚ) (h : wfDoc now root = true) :
    parse_gpx_simple (some root) now =
      ((iterAll root).filter hasBothCoords).map (trkptPoint now) := by
  have hfilter : (iterAll root).filter goodTrkpt = (iterAll root).filter hasBothCoords :=
    List.filter_congr (wfDoc_good_eq now root h)
  calc parse_gpx_simple (some root) now
      = gpxLoop now (iterAll root) := rfl
    _ = ((iterAll root).filter goodTrkpt).map (trkptPoint now) :=
        gpxLoop_clean now _ (wfDoc_noAbort now root h)
    _ = ((iterAll root).filter hasBothCoords).map (trkptPoint now) := by rw [hfilter]

/-- Claim C5 witness: a document with three track-points, the middle one
lacking the lon attribute, yields exactly the first and third as samples,
in original order. -/
theorem C5_parser_filters_coords_witness :
    wfDoc 7 doc3 = true ∧
    parse_gpx_simple (some doc3) 7 =
      ((iterAll doc3).filter hasBothCoords).map (trkptPoint 7) ∧
    parse_gpx_simple (some doc3) 7 =
      [⟨47, 8, none, none, 7⟩, ⟨(472 : ℚ) / 10, (82 : ℚ) / 10, some 500, none, 7⟩] :=
  ⟨by with_unfolding_all rfl,
   C5_parser_filters_coords doc3 7 (by with_unfolding_all rfl),
   by with_unfolding_all rfl⟩

/-- Claim C6: an input that is not parseable markup (ET.fromstring raises,
embedded as the none document) makes the parser return the empty sequence;
the except clause catches the raise, so nothing escapes the parser. -/
theorem C6_malformed_empty (now : ℚ) : parse_gpx_simple none now = [] := rfl

/-- Claim C7 (amended): on a retained track-point the elevation is read
from a child element matched by tag and parsed as a float; a missing or
empty text leaves the field absent without error, but a non-empty
non-numeric text makes float() raise: the outer except then ends the
parse, dropping the current sample and all remaining track-points, and
the parser returns only the samples accumulated before it. -/
theorem C7_elevation_amended :
    (∀ (now : ℚ) (pre : List XElem) (e : XElem) (post : List XElem),
      (∀ x ∈ pre, goodTrkpt x = true → noAbort now x = true) →
      goodTrkpt e = true →
      (pyFloat ((List.lookup "lat" e.attrs).getD "")).isSome = true →
      (pyFloat ((List.lookup "lon" e.attrs).getD "")).isSome = true →
      procChildren now e.children (none, now) = .error () →
      gpxLoop now (pre ++ e :: post) = (pre.filter goodTrkpt).map (trkptPoint now)) ∧
    (∀ (now : ℚ) (c : XElem) (cs : XChildren) (st : Option ℚ × ℚ),
      containsSub "ele" c.tag = true → (c.text = none ∨ c.text = some "") →
      procChildren now (.cons c cs) st = procChildren now cs (none, st.2)) := by
  constructor
  · intro now pre e post hpre hgood hla hlo habort
    exact gpxLoop_append_abort now pre e post hpre hgood hla hlo habort
  · intro now c cs st htag htext
    rcases htext with h | h <;> simp [procChildren, htag, h]

def tpBadEle : XElem := .mk "{gpx}trkpt" [("lat", "1.0"), ("lon", "2.0")] none
    (xc [.mk "{gpx}ele" [] (some "abc") (xc [])])

def docBadEle : XElem := .mk "{gpx}gpx" [] none (xc [tpBadEle, tpA])

/-- Claim C7 counterexample: a document whose first track-point carries a
non-numeric elevation text followed by a fully valid track-point yields no
samples at all: the valid remaining track-point is not processed and the
bad sample is not emitted with an absent elevation, contradicting the
claim. -/
theorem C7_elevation_counterexample :
    parse_gpx_simple (some docBadEle) 7 = [] ∧
    hasBothCoords tpA = true ∧
    parse_gpx_simple (some (XElem.mk "{gpx}gpx" [] none (xc [tpA]))) 7 =
      [⟨47, 8, none, none, 7⟩] :=
  ⟨by with_unfolding_all rfl, by rfl, by with_unfolding_all rfl⟩

/-- Claim C7 witness: with one clean track-point before the bad-elevation
one, the parse stops there and returns exactly the one earlier sample; and
an elevation child with empty text leaves the field absent and continues. -/
theorem C7_elevation_amended_witness :
    gpxLoop 7 ([tpA] ++ tpBadEle :: [tpC]) = ([tpA].filter goodTrkpt).map (trkptPoint 7) ∧
    procChildren 7 (.cons (XElem.mk "{gpx}ele" [] (some "") (xc [])) .nil) (some 3, 9) =
      procChildren 7 .nil (none, 9) :=
  ⟨C7_elevation_amended.1 7 [tpA] tpBadEle [tpC]
      (by
        intro x hx hg
        have hxa := List.mem_singleton.mp hx
        subst hxa
        with_unfolding_all rfl)
      (by rfl) (by with_unfolding_all rfl) (by with_unfolding_all rfl)
      (by with_unfolding_all rfl),
   C7_elevation_amended.2 7 (XElem.mk "{gpx}ele" [] (some "") (xc [])) .nil (some 3, 9)
      (by rfl) (Or.inr rfl)⟩

/-! Claims about the activity normalizer. -/

theorem format_eq (s : RawActivity) (now : ℚ) (dl : Option (Option XElem)) :
    format_activity_data s now dl =
      match (if s.startTimeLocal.getD "" = "" then some now
             else pyFromisoformatVal (stripZ (s.startTimeLocal.getD ""))) with
      | none => none
      | some start_time => some {
          activity_id := pyStr s.activityId
          start_time := start_time
          end_time := if s.duration.getD 0 ≠ 0 then some (start_time + s.duration.getD 0)
            else none
          distance_meters := s.distance.getD 0
          duration_seconds := s.duration.getD 0
          avg_pace_seconds_per_km := calculate_pace (s.distance.getD 0) (s.duration.getD 0)
          calories := s.calories.getD 0
          avg_heart_rate := s.averageHR
          max_heart_rate := s.maxHR
          gps_points := get_gps_data dl now } := rfl

def rawNoDist : RawActivity := { activityId := some 1, duration := some 100 }

/-- Claim C2: for positive distance and duration the derived pace equals
duration_seconds / (distance_meters / 1000) rounded to two decimal places;
a zero distance or duration yields an absent pace (None); and an absent
distance or duration in the raw record yields an absent pace in the
normalized record — never zero, infinity, or a division by zero. -/
theorem C2_pace_correct (dist dur : ℚ) (s : RawActivity) (now : ℚ)
    (dl : Option (Option XElem)) :
    (0 < dist → 0 < dur →
      calculate_pace dist dur = some (pyRound2 (dur / (dist / 1000)))) ∧
    ((dist = 0 ∨ dur = 0) → calculate_pace dist dur = none) ∧
    ((s.distance = none ∨ s.duration = none) → ∀ fd,
      format_activity_data s now dl = some fd → fd.avg_pace_seconds_per_km = none) := by
  have hz : ∀ d t : ℚ, (d = 0 ∨ t = 0) → calculate_pace d t = none := by
    intro d t h
    unfold calculate_pace
    rw [if_neg]
    rintro ⟨h1, h2, h3⟩
    rcases h with h | h
    · exact h1 h
    · exact h2 h
  refine ⟨?_, hz dist dur, ?_⟩
  · intro hd ht
    unfold calculate_pace
    rw [if_pos ⟨ne_of_gt hd, ne_of_gt ht, hd⟩]
  · intro h fd hfd
    rw [format_eq] at hfd
    split at hfd
    · exact Option.noConfusion hfd
    · have hfd2 := Option.some.inj hfd
      rw [← hfd2]
      rcases h with h | h
      · simp only [h, Option.getD_none]
        exact hz 0 _ (Or.inl rfl)
      · simp only [h, Option.getD_none]
        exact hz _ 0 (Or.inr rfl)

/-- Claim C2 witness: distance 5000 m and duration 1500 s give a pace of
exactly 300.00 s/km; zero distance gives no pace; a record with an absent
distance normalizes to an absent pace. -/
theorem C2_pace_correct_witness :
    calculate_pace 5000 1500 = some (pyRound2 (1500 / (5000 / 1000))) ∧
    calculate_pace 5000 1500 = some 300 ∧
    calculate_pace 0 1500 = none ∧
    (∀ fd, format_activity_data rawNoDist 3 none = some fd →
      fd.avg_pace_seconds_per_km = none) :=
  ⟨(C2_pace_correct 5000 1500 rawNoDist 3 none).1 (by with_unfolding_all decide)
      (by with_unfolding_all decide),
   by with_unfolding_all rfl,
   (C2_pace_correct 0 1500 rawNoDist 3 none).2.1 (Or.inl rfl),
   (C2_pace_correct 0 1500 rawNoDist 3 none).2.2 (Or.inl rfl)⟩

def rawNoCal : RawActivity :=
  { activityId := some 2, duration := some 100, distance := some 1000,
    averageHR := some 150 }

/-- Claim C3 counterexample: a summary record that omits the calories key
is normalized to calories 0, not to an absent value — the source applies
the default 0 in its get call, contradicting the claim for the calories
field (the heart-rate fields do stay absent). -/
theorem C3_passthrough_counterexample :
    rawNoCal.calories = none ∧
    (format_activity_data rawNoCal 0 none).map (·.calories) = some 0 :=
  ⟨rfl, by with_unfolding_all rfl⟩

/-- Claim C3 (amended): in the normalized record the heart-rate fields
pass through from the raw summary unmodified, absent staying absent (None,
never 0); the calories value passes through when present but an absent
calories key is defaulted to 0. -/
theorem C3_passthrough_amended (s : RawActivity) (now : ℚ) (dl : Option (Option XElem))
    (h : (format_activity_data s now dl).isSome = true) :
    (format_activity_data s now dl).map (·.avg_heart_rate) = some s.averageHR ∧
    (format_activity_data s now dl).map (·.max_heart_rate) = some s.maxHR ∧
    (format_activity_data s now dl).map (·.calories) = some (s.calories.getD 0) := by
  rw [format_eq] at h ⊢
  split at h
  · exact absurd h (by simp)
  · exact ⟨rfl, rfl, rfl⟩

/-- Claim C3 witness: a record with an average heart rate of 150, no max
heart rate and no calories normalizes to the same heart-rate values and
calories 0. -/
theorem C3_passthrough_amended_witness :
    (format_activity_data rawNoCal 0 none).map (·.avg_heart_rate) = some rawNoCal.averageHR ∧
    (format_activity_data rawNoCal 0 none).map (·.max_heart_rate) = some rawNoCal.maxHR ∧
    (format_activity_data rawNoCal 0 none).map (·.calories) = some (rawNoCal.calories.getD 0) :=
  C3_passthrough_amended rawNoCal 0 none (by with_unfolding_all rfl)

def sBadTime : RawActivity := { activityId := some 7, startTimeLocal := some "not-a-date" }

def sNoTime : RawActivity := { activityId := some 4 }

def sGoodTime : RawActivity :=
  { activityId := some 3, startTimeLocal := some "2024-01-01T06:00:00Z" }

/-- Claim C4 counterexample: a summary whose local-start-time string is
non-empty but unparseable makes normalization return none for the whole
activity (fromisoformat raises and the enclosing except returns None); it
does not succeed with start_time set to the current time as claimed. -/
theorem C4_start_time_counterexample :
    sBadTime.startTimeLocal.getD "" ≠ "" ∧
    pyFromisoformatVal (stripZ (sBadTime.startTimeLocal.getD "")) = none ∧
    format_activity_data sBadTime 5 none = none :=
  ⟨by decide, by rfl, by rfl⟩

/-- Claim C4 (amended): start_time is parsed from the local-start-time
string after removing every Z character; a missing or empty string falls
back to the current time; but a non-empty string that does not parse makes
normalization fail for that activity — it returns none (with the
exception caught, not propagated), not a record with the current time. -/
theorem C4_start_time_amended (s : RawActivity) (now : ℚ) (dl : Option (Option XElem)) :
    (s.startTimeLocal.getD "" = "" →
      (format_activity_data s now dl).map (·.start_time) = some now) ∧
    (∀ t, pyFromisoformatVal (stripZ (s.startTimeLocal.getD "")) = some t →
      s.startTimeLocal.getD "" ≠ "" →
      (format_activity_data s now dl).map (·.start_time) = some t) ∧
    (s.startTimeLocal.getD "" ≠ "" →
      pyFromisoformatVal (stripZ (s.startTimeLocal.getD "")) = none →
      format_activity_data s now dl = none) := by
  refine ⟨?_, ?_, ?_⟩
  · intro hsts
    rw [format_eq, if_pos hsts]
    rfl
  · intro t ht hsts
    rw [format_eq, if_neg hsts, ht]
    rfl
  · intro hsts hnone
    rw [format_eq, if_neg hsts, hnone]

/-- Claim C4 witness: a record with no start-time string normalizes with
the current time as start_time; a string with a trailing Z parses after
the Z is removed; the unparseable string makes normalization return none. -/
theorem C4_start_time_amended_witness :
    (format_activity_data sNoTime 11 none).map (·.start_time) = some 11 ∧
    (format_activity_data sGoodTime 0 none).map (·.start_time) =
      some (dateSeconds 2024 1 1 + 21600) ∧
    format_activity_data sBadTime 5 none = none :=
  ⟨(C4_start_time_amended sNoTime 11 none).1 rfl,
   (C4_start_time_amended sGoodTime 0 none).2.1 (dateSeconds 2024 1 1 + 21600)
      (by with_unfolding_all rfl) (by decide),
   (C4_start_time_amended sBadTime 5 none).2.2 (by decide) (by rfl)⟩

def sNoId : RawActivity := { duration := some 100, distance := some 1000 }

/-- Claim C8 counterexample: a summary record from which no external
identifier can be extracted (no activityId key) still normalizes
successfully, producing a record whose identifier is the bogus string
"None" (Python str(None)) — normalization does not fail as claimed. -/
theorem C8_missing_id_counterexample :
    sNoId.activityId = none ∧
    (format_activity_data sNoId 0 none).map (·.activity_id) = some "None" :=
  ⟨rfl, by with_unfolding_all rfl⟩

/-- Claim C8 (amended): the external identifier is always coerced with
str(), so an absent identifier becomes the literal string "None" in a
successfully normalized record; normalization returns none (with the
exception caught and logged, never propagated) exactly when the start-time
string is truthy and unparseable — never because the identifier is
missing. -/
theorem C8_missing_id_amended (s : RawActivity) (now : ℚ) (dl : Option (Option XElem)) :
    ((format_activity_data s now dl).isSome = true →
      (format_activity_data s now dl).map (·.activity_id) = some (pyStr s.activityId)) ∧
    (format_activity_data s now dl = none ↔
      s.startTimeLocal.getD "" ≠ "" ∧
      pyFromisoformatVal (stripZ (s.startTimeLocal.getD "")) = none) := by
  constructor
  · intro h
    rw [format_eq] at h ⊢
    split at h
    · exact absurd h (by simp)
    · rfl
  · by_cases hsts : s.startTimeLocal.getD "" = ""
    · rw [format_eq, if_pos hsts]
      simp [hsts]
    · rw [format_eq, if_neg hsts]
      cases hp : pyFromisoformatVal (stripZ (s.startTimeLocal.getD "")) with
      | none => simp [hsts]
      | some t => simp [hsts, hp]

/-- Claim C8 witness: the record without an activityId normalizes to the
identifier string "None". -/
theorem C8_missing_id_amended_witness :
    (format_activity_data sNoId 0 none).map (·.activity_id) = some (pyStr sNoId.activityId) :=
  (C8_missing_id_amended sNoId 0 none).1 (by with_unfolding_all rfl)

/-! Claims about the orchestrator: deduplicated ingestion and the batch
listing query. -/

theorem find_append_isSome {α : Type} (p : α → Bool) (l : List α) (x : α)
    (hx : p x = true) : ((l ++ [x]).find? p).isSome = true := by
  induction l with
  | nil => simp only [List.nil_append, List.find?, hx, Option.isSome_some]
  | cons a as ih =>
    cases hpa : p a with
    | true => simp only [List.cons_append, List.find?, hpa, Option.isSome_some]
    | false => simpa only [List.cons_append, List.find?, hpa] using ih

theorem mainSync_runs_new (db : DB) (ad : FormattedData)
    (hq : get_activity_by_id db ad.activity_id = none) :
    (mainSync db (some ad)).runs = db.runs ++ [runOf ad db.nextId] := by
  have hfind : db.runs.find? (fun r => r.activity_id == ad.activity_id) = none := by
    unfold get_activity_by_id at hq
    cases hf : db.runs.find? (fun r => r.activity_id == ad.activity_id) with
    | none => rfl
    | some r => rw [hf] at hq; exact Option.noConfusion hq
  have hany : db.runs.any (fun r => r.activity_id == ad.activity_id) = false := by
    rw [Bool.eq_false_iff]
    intro habs
    obtain ⟨x, hx, hpx⟩ := List.any_eq_true.mp habs
    exact (List.find?_eq_none.mp hfind) x hx hpx
  by_cases hg : ad.gps_points = []
  · simp [mainSync, hq, insert_run, hany, hg]
  · simp [mainSync, hq, insert_run, hany, hg, insert_gps_points]

/-- Claim C1: re-ingesting an activity whose external identifier is
already persisted is a no-op. The duplicate check (a read keyed on the
identifier) runs before any write and a hit leaves the whole store
unchanged (zero writes); running the sync twice with the same activity
gives the same state as running it once, and when the identifier was not
stored before, exactly one runs row with it exists afterwards. -/
theorem C1_dedup_idempotent (db : DB) (ad : FormattedData) :
    ((get_activity_by_id db ad.activity_id).isSome = true → mainSync db (some ad) = db) ∧
    mainSync (mainSync db (some ad)) (some ad) = mainSync db (some ad) ∧
    (countRuns db ad.activity_id = 0 →
      countRuns (mainSync db (some ad)) ad.activity_id = 1) := by
  have hdup : ∀ dbx : DB, (get_activity_by_id dbx ad.activity_id).isSome = true →
      mainSync dbx (some ad) = dbx := by
    intro dbx h
    obtain ⟨i, hi⟩ := Option.isSome_iff_exists.mp h
    simp [mainSync, hi]
  refine ⟨hdup db, ?_, ?_⟩
  · cases hq : get_activity_by_id db ad.activity_id with
    | some i =>
      have h1 : mainSync db (some ad) = db := hdup db (by simp [hq])
      rw [h1, h1]
    | none =>
      apply hdup
      unfold get_activity_by_id
      rw [mainSync_runs_new db ad hq]
      have hpx : ((runOf ad db.nextId).activity_id == ad.activity_id) = true := by
        simp [runOf]
      have hf := find_append_isSome (fun r => r.activity_id == ad.activity_id)
        db.runs (runOf ad db.nextId) hpx
      cases hff : (db.runs ++ [runOf ad db.nextId]).find?
          (fun r => r.activity_id == ad.activity_id) with
      | none => rw [hff] at hf; exact absurd hf (by simp)
      | some r => simp [hff]
  · intro hc
    have h0 : db.runs.filter (fun r => r.activity_id == ad.activity_id) = [] :=
      List.length_eq_zero.mp hc
    have hq : get_activity_by_id db ad.activity_id = none := by
      unfold get_activity_by_id
      cases hff : db.runs.find? (fun r => r.activity_id == ad.activity_id) with
      | none => rfl
      | some r =>
        have hmem := List.mem_of_find?_eq_some hff
        have hpr := List.find?_some hff
        have hrf : r ∈ db.runs.filter (fun r => r.activity_id == ad.activity_id) :=
          List.mem_filter.mpr ⟨hmem, hpr⟩
        rw [h0] at hrf
        cases hrf
    unfold countRuns
    rw [mainSync_runs_new db ad hq, List.filter_append, h0]
    simp [runOf]

def adEx : FormattedData :=
  { activity_id := "42", start_time := 0, end_time := some 3000,
    distance_meters := 10000, duration_seconds := 3000,
    avg_pace_seconds_per_km := some 300, calories := 0,
    avg_heart_rate := none, max_heart_rate := none, gps_points := [] }

def db0 : DB := { runs := [], gps_points := [], nextId := 1 }

/-- Claim C1 witness: starting from an empty store, syncing the same
activity twice stores exactly one row and the second run changes nothing. -/
theorem C1_dedup_idempotent_witness :
    mainSync (mainSync db0 (some adEx)) (some adEx) = mainSync db0 (some adEx) ∧
    countRuns db0 adEx.activity_id = 0 ∧
    countRuns (mainSync db0 (some adEx)) adEx.activity_id = 1 :=
  ⟨(C1_dedup_idempotent (mainSync db0 (some adEx)) adEx).1 (by with_unfolding_all rfl),
   rfl,
   (C1_dedup_idempotent db0 adEx).2.2 rfl⟩

theorem sinceLoop_ok (cutoff : ℚ) (acts : List RawActivity)
    (h : ∀ a ∈ acts, a.startTimeLocal.getD "" ≠ "" →
      (pyFromisoformatNaive (stripZ (a.startTimeLocal.getD ""))).isSome = true) :
    sinceLoop cutoff acts = .ok (acts.filter (recentOk cutoff)) := by
  induction acts with
  | nil => rfl
  | cons a as ih =>
    have has : ∀ x ∈ as, x.startTimeLocal.getD "" ≠ "" →
        (pyFromisoformatNaive (stripZ (x.startTimeLocal.getD ""))).isSome = true :=
      fun x hx => h x (List.mem_cons_of_mem a hx)
    by_cases hsts : a.startTimeLocal.getD "" = ""
    · have hro : recentOk cutoff a = false := by simp [recentOk, hsts]
      simp [sinceLoop, hsts, List.filter_cons, hro, ih has]
    · have hp := h a (List.mem_cons_self a as) hsts
      obtain ⟨t, ht⟩ := Option.isSome_iff_exists.mp hp
      have hro : recentOk cutoff a = decide (t > cutoff) := by
        simp [recentOk, hsts, ht]
      by_cases hcmp : t > cutoff
      · simp [sinceLoop, hsts, ht, ih has, List.filter_cons, hro, hcmp]
      · simp [sinceLoop, hsts, ht, ih has, List.filter_cons, hro, hcmp]

def weekNow : ℚ := dateSeconds 2024 2 15 + 43200

def aCyc : RawActivity :=
  { activityId := some 10, activityType := some (some "cycling"),
    startTimeLocal := some "2024-02-14T12:00:00" }

/-- Claim C9 counterexample: the batch query does not apply the
running-type restriction of the single-run path: a cycling activity from
yesterday is returned by get_activities_since with a 7-day lookback, even
though the running filter of get_latest_run would exclude it. -/
theorem C9_since_counterexample :
    get_activities_since true [aCyc] weekNow 7 = [aCyc] ∧
    isRunning aCyc = false ∧ runningOnly [aCyc] = [] :=
  ⟨by with_unfolding_all rfl, by rfl, by rfl⟩

/-- Claim C9 (amended): the batch query filters only by date, with no
activity-type restriction: when every listed activity with a non-empty
local-start-time string parses (as a naive datetime), it returns, in
listing order, exactly the activities whose non-empty local start time is
strictly after now minus N days. -/
theorem C9_since_amended (acts : List RawActivity) (now days_back : ℚ)
    (h : ∀ a ∈ acts, a.startTimeLocal.getD "" ≠ "" →
      (pyFromisoformatNaive (stripZ (a.startTimeLocal.getD ""))).isSome = true) :
    get_activities_since true acts now days_back =
      acts.filter (recentOk (now - days_back * 86400)) := by
  have hloop := sinceLoop_ok (now - days_back * 86400) acts h
  simp [get_activities_since, hloop]

def aDay1 : RawActivity :=
  { activityId := some 11, activityType := some (some "running"),
    startTimeLocal := some "2024-02-14T12:00:00" }

def aDay10 : RawActivity :=
  { activityId := some 12, activityType := some (some "running"),
    startTimeLocal := some "2024-02-05T12:00:00" }

def aDay40 : RawActivity :=
  { activityId := some 13, activityType := some (some "running"),
    startTimeLocal := some "2024-01-06T12:00:00" }

/-- Claim C9 witness: for activities at day-offsets -1, -10 and -40 from
now and a 7-day lookback, exactly the -1 day activity is returned. -/
theorem C9_since_amended_witness :
    get_activities_since true [aDay1, aDay10, aDay40] weekNow 7 =
      [aDay1, aDay10, aDay40].filter (recentOk (weekNow - 7 * 86400)) ∧
    get_activities_since true [aDay1, aDay10, aDay40] weekNow 7 = [aDay1] :=
  ⟨C9_since_amended [aDay1, aDay10, aDay40] weekNow 7 (by
      intro a ha hne
      fin_cases ha <;> with_unfolding_all rfl),
   by with_unfolding_all rfl⟩

theorem sinceLoop_mem (cutoff : ℚ) (acts : List RawActivity) (r : List RawActivity)
    (hs : sinceLoop cutoff acts = .ok r) :
    ∀ b ∈ r, b.startTimeLocal.getD "" ≠ "" := by
  induction acts generalizing r with
  | nil =>
    have hr : ([] : List RawActivity) = r := Except.ok.inj hs
    intro b hb
    rw [← hr] at hb
    cases hb
  | cons a as ih =>
    rw [sinceLoop] at hs
    by_cases hsts : a.startTimeLocal.getD "" = ""
    · rw [if_pos hsts] at hs
      exact ih r hs
    · rw [if_neg hsts] at hs
      cases hp : pyFromisoformatNaive (stripZ (a.startTimeLocal.getD "")) with
      | none => rw [hp] at hs; cases hs
      | some t =>
        rw [hp] at hs
        cases hs2 : sinceLoop cutoff as with
        | error u => rw [hs2] at hs; cases hs
        | ok r2 =>
          rw [hs2] at hs
          have hr := Except.ok.inj hs
          intro b hb
          rw [← hr] at hb
          by_cases hcmp : t > cutoff
          · rw [if_pos hcmp] at hb
            rcases List.mem_cons.mp hb with hba | hbr
            · rw [hba]; exact hsts
            · exact ih r2 hs2 b hbr
          · rw [if_neg hcmp] at hb
            exact ih r2 hs2 b hb

/-- Claim C10: the batch query silently excludes every activity whose
local-start-time string is missing or empty, regardless of how recent it
is: such an activity is never in the returned list, and the function
returns normally (the exclusion produces no error). -/
theorem C10_missing_start_excluded (logged_in : Bool) (acts : List RawActivity)
    (now days_back : ℚ) (a : RawActivity)
    (h : a.startTimeLocal = none ∨ a.startTimeLocal = some "") :
    a ∉ get_activities_since logged_in acts now days_back := by
  have hsts : a.startTimeLocal.getD "" = "" := by
    rcases h with h | h <;> rw [h] <;> rfl
  unfold get_activities_since
  cases logged_in with
  | false => simp
  | true =>
    simp only [Bool.true_eq_false, if_false]
    cases hs : sinceLoop (now - days_back * 86400) acts with
    | error u => simp
    | ok r =>
      intro hmem
      exact sinceLoop_mem (now - days_back * 86400) acts r hs a hmem hsts

def aEmpty : RawActivity := { activityId := some 14 }

/-- Claim C10 witness: an activity with no local-start-time string is not
in the batch query result even when it is the only listed activity. -/
theorem C10_missing_start_excluded_witness :
    aEmpty ∉ get_activities_since true [aEmpty] 0 7 :=
  C10_missing_start_excluded true [aEmpty] 0 7 aEmpty (Or.inl rfl)
